import Mathlib

/-!
# Verification of the 468Forecasts bot forecast core (src/main.py)

Shallow embedding of the forecast aggregation engine (`parse_yr`,
`deg_to_compass`) and the cell-text part of the rendering engine
(`build_image`) from `src/main.py`, together with theorems settling the
frozen claims about them.

Conventions of the embedding:
* Python floats are modelled as rationals (`ℚ`).
* Python `round(x)` (banker's rounding, round-half-to-even) is `pyRound`;
  `round(x, 1)` is `round1`; `int(x)` (truncation toward zero) is `pyInt`.
* An optional JSON leaf field is `Option _`; a missing or unparseable
  timestamp is `time = none` (the code silently skips such entries).
* `f"{x:.1f}"` applied to a one-decimal value is `fmt1`.
* Local calendar dates are integers (day numbers in the configured zone);
  the reference instant enters only through its local date `today`.
-/

namespace Forecasts

/-- Python `round(x)`: round half to even (banker's rounding). -/
def pyRound (q : ℚ) : ℤ :=
  if q - (⌊q⌋ : ℚ) < 1/2 then ⌊q⌋
  else if 1/2 < q - (⌊q⌋ : ℚ) then ⌊q⌋ + 1
  else if ⌊q⌋ % 2 = 0 then ⌊q⌋ else ⌊q⌋ + 1

/-- Python `int(x)`: truncation toward zero. -/
def pyInt (q : ℚ) : ℤ :=
  if q < 0 then -⌊-q⌋ else ⌊q⌋

/-- Python `round(x, 1)`: round to one decimal place. -/
def round1 (q : ℚ) : ℚ :=
  ((pyRound (q * 10) : ℤ) : ℚ) / 10

/-- Rendering of a one-decimal value, as Python `f"{x:.1f}"` / `str` of a
one-decimal float (`0 ↦ "0.0"`, `-2 ↦ "-2.0"`, `3.5 ↦ "3.5"`). -/
def fmt1 (q : ℚ) : String :=
  let n : ℤ := pyRound (q * 10)
  let sign := if n < 0 then "-" else ""
  sign ++ toString (n.natAbs / 10) ++ "." ++ toString (n.natAbs % 10)

/-- The 16-point compass table from `deg_to_compass` (src/main.py:156). -/
def dirs : List String :=
  ["N","NNE","NE","ENE","E","ESE","SE","SSE","S","SSW","SW","WSW","W","WNW","NW","NNW"]

/-- `deg_to_compass` (src/main.py:153-158): `ix = int((deg + 11.25) / 22.5) % 16`,
then `dirs[ix]`; `None` renders `"?"`.  `ix` always lies in `[0, 16)`, so the
total `getD` lookup coincides with Python's partial indexing. -/
def deg_to_compass (deg : Option ℚ) : String :=
  match deg with
  | none => "?"
  | some d => dirs.getD ((pyInt ((d + 45/4) / (45/2)) % 16).toNat) "?"

/-- The compass bucketing the spec's words describe instead:
`round((deg + 11.25) / 22.5) mod 16` with true (Python) rounding.
Kept separate from `deg_to_compass` to compare against the source. -/
def specCompass (d : ℚ) : String :=
  dirs.getD ((pyRound ((d + 45/4) / (45/2)) % 16).toNat) "?"

/-- One decoded entry of `properties.timeseries` as read by `parse_yr`
(src/main.py:174-203).
* `time`: the entry's local calendar date after time-zone conversion;
  `none` models a missing, falsy or unparseable `time` string (skipped).
* `temp`, `wind_speed`, `wind_dir`: the instant details, `none` if missing.
* `next_1_hours`: `none` if `"next_1_hours"` is absent from `data` or its
  `details` are missing/falsy; `some a` if details are present, with
  `a = some q` when `precipitation_amount` is `q` and `a = none` when the
  amount key is missing (Python then defaults to `0.0`).
* `next_6_hours`: same encoding for the longer accumulation window, which
  is present in upstream payloads but never read by the code. -/
structure Item where
  time : Option ℤ
  temp : Option ℚ
  wind_speed : Option ℚ
  wind_dir : Option ℚ
  next_1_hours : Option (Option ℚ)
  next_6_hours : Option (Option ℚ)
deriving DecidableEq

/-- Per-sample precipitation extraction (src/main.py:192-195): `precip = 0.0`,
overwritten by `next_1_hours.details.precipitation_amount` (default `0.0`)
exactly when `next_1_hours` with truthy `details` is present.  No other
window is consulted. -/
def extractPrecip (it : Item) : ℚ :=
  match it.next_1_hours with
  | some details => details.getD 0
  | none => 0

/-- Per-sample precipitation extraction as the spec's words describe it:
examine accumulation windows shortest first and take the first present
(1-hour, then 6-hour), else 0.  Kept to compare against `extractPrecip`. -/
def specExtractPrecip (it : Item) : ℚ :=
  match it.next_1_hours with
  | some details => details.getD 0
  | none =>
    match it.next_6_hours with
    | some details => details.getD 0
    | none => 0

/-- Python `min(l)` for nonempty `l`, `none` on `[]` (the code guards with
`if temps`). -/
def minList : List ℚ → Option ℚ
  | [] => none
  | x :: xs => some (xs.foldl min x)

/-- Python `max(l)` for nonempty `l`, `none` on `[]`. -/
def maxList : List ℚ → Option ℚ
  | [] => none
  | x :: xs => some (xs.foldl max x)

/-- `statistics.mean` (only applied to nonempty lists in the code). -/
def meanQ (l : List ℚ) : ℚ := l.sum / l.length

/-- One value of the dictionary `parse_yr` returns per day
(src/main.py:216-222), plus the day key itself. -/
structure DayAgg where
  date : ℤ
  temp_min : Option ℤ
  temp_max : Option ℤ
  wind_speed : Option ℚ
  wind_dir_deg : Option ℚ
  precip_mm : ℚ
deriving DecidableEq

/-- The per-day reduction of `parse_yr` (src/main.py:209-222): min/max
temperature rounded to int, mean wind speed rounded to one decimal, the
positional middle wind direction, and the rounded precipitation sum. -/
def reduceDay (d : ℤ) (lst : List Item) : DayAgg :=
  let temps := lst.filterMap (fun x => x.temp)
  let wind_speeds := lst.filterMap (fun x => x.wind_speed)
  let wind_dirs := lst.filterMap (fun x => x.wind_dir)
  let total_precip := (lst.map extractPrecip).sum
  { date := d
    temp_min := (minList temps).map pyRound
    temp_max := (maxList temps).map pyRound
    wind_speed := if wind_speeds.isEmpty then none
                  else some (round1 (meanQ wind_speeds))
    wind_dir_deg := wind_dirs[wind_dirs.length / 2]?
    precip_mm := round1 total_precip }

/-- One step of the bucketing-and-reduction of `parse_yr`
(src/main.py:170-223) applied to an already-extracted `timeseries` list:
the row for target date `today + i` (the `target_dates` are the five
consecutive local dates starting at `today`).  The bucket holds every
sample whose local date equals that date, in payload order; an empty
bucket produces no row (`if not lst: continue`).  The dictionary the code
builds is modelled as a list in its insertion order, i.e. ascending date
order (which also equals the renderer's `sorted` key order). -/
def dayRow (today : ℤ) (items : List Item) (i : ℕ) : Option DayAgg :=
  let d := today + (i : ℤ)
  let lst := items.filter (fun it => it.time == some d)
  if lst.isEmpty then none else some (reduceDay d lst)

/-- The full aggregation over the 5-day window: one optional row per day
offset `0..4`. -/
def parse_yr_items (today : ℤ) (items : List Item) : List DayAgg :=
  (List.range 5).filterMap (dayRow today items)

/-- The `timeseries` value found inside `properties`: absent key (Python
then uses the default `[]`), a proper list of entries, or a present but
non-iterable value (e.g. a number), on which Python's `for` raises. -/
inductive TimeseriesField where
  | absent
  | entries (items : List Item)
  | nonIterable
deriving DecidableEq

/-- The `properties` value of the top-level payload: absent key (default
`{}`), a proper object carrying `timeseries`, or a present non-object
value (e.g. `null` or a number), on which `.get` raises AttributeError. -/
inductive PropertiesField where
  | absent
  | obj (timeseries : TimeseriesField)
  | nonObj
deriving DecidableEq

/-- The decoded top-level payload handed to `parse_yr`: a JSON object with
its `properties` member, or a non-object document. -/
inductive Payload where
  | obj (properties : PropertiesField)
  | nonObj
deriving DecidableEq

/-- `parse_yr` (src/main.py:160-223) including its top-level field access
`json_data.get("properties", {}).get("timeseries", [])`, with Python's
exceptions modelled as `Except.error`. -/
def parse_yr (today : ℤ) (p : Payload) : Except String (List DayAgg) :=
  match p with
  | .nonObj => .error "AttributeError"
  | .obj properties =>
    match properties with
    | .absent => .ok (parse_yr_items today [])
    | .nonObj => .error "AttributeError"
    | .obj ts =>
      match ts with
      | .absent => .ok (parse_yr_items today [])
      | .nonIterable => .error "TypeError"
      | .entries items => .ok (parse_yr_items today items)

/-- The snow heuristic of `build_image` (src/main.py:319-320):
`snow = round(rain * 1.5, 1) if (tmax is not None and tmax <= 0) else 0.0`. -/
def snowOf (info : DayAgg) : ℚ :=
  match info.temp_max with
  | some tmax => if tmax ≤ 0 then round1 (info.precip_mm * (3/2)) else 0
  | none => 0

/-- The temperature cell text (src/main.py:301):
`f"{tmax}/{tmin}"` when both bounds are present, else `"?"`. -/
def tempText (tmax tmin : Option ℤ) : String :=
  match tmax, tmin with
  | some hi, some lo => toString hi ++ "/" ++ toString lo
  | _, _ => "?"

/-- The wind cell text (src/main.py:314-316): compass label, a space, then
the speed or `"?"`. -/
def windText (info : DayAgg) : String :=
  deg_to_compass info.wind_dir_deg ++ " " ++
    (match info.wind_speed with
     | some w => fmt1 w
     | none => "?")

/-- The five cell texts of one table row (src/main.py:323-329):
`[label, t_text, wind_txt, f"{rain:.1f}", f"{snow:.1f}"]`. -/
def rowCells (label : String) (info : DayAgg) : List String :=
  [label,
   tempText info.temp_max info.temp_min,
   windText info,
   fmt1 info.precip_mm,
   fmt1 (snowOf info)]

/-- The uniform scale factor of `build_image` (src/main.py:245). -/
def scale : ℚ := 3/2

/-- The column header labels of `build_image` (src/main.py:266). -/
def headers : List String :=
  ["Date", "Temp (°C)", "Wind (m/s)", "Rain (mm)", "Snow (cm)"]

/-- The five column centers of `build_image` (src/main.py:268-274). -/
def col_centers : List ℚ :=
  [12 * scale + 75 * scale,
   12 * scale + 75 * scale + 160 * scale,
   12 * scale + 75 * scale + 320 * scale,
   12 * scale + 75 * scale + 480 * scale,
   12 * scale + 75 * scale + 620 * scale]

/-- The x-coordinate at which a header label is drawn
(src/main.py:279-282): `cx - w/2` for measured text width `w`. -/
def headerX (textWidth : String → ℚ) (cx : ℚ) (lbl : String) : ℚ :=
  cx - textWidth lbl / 2

/-! ## Concrete inputs used by witnesses and counterexamples -/

/-- A sample with temperature 3.6 °C, wind 3 m/s from 90°, and a 0.5 mm
1-hour precipitation amount, on day 0. -/
def itemA : Item :=
  ⟨some 0, some (18/5), some 3, some 90, some (some (1/2)), none⟩

/-- A sample with no temperature reading, wind 5 m/s from 180°, and a
present 1-hour window whose amount key is missing, on day 0. -/
def itemB : Item :=
  ⟨some 0, none, some 5, some 180, some none, none⟩

/-- The aggregate produced from the bucket `[itemA, itemB]` on day 0. -/
def demoAgg : DayAgg := reduceDay 0 [itemA, itemB]

/-- A sample that lacks the 1-hour window but carries a 6-hour window
reporting 5 mm. -/
def item6h : Item := ⟨some 0, none, none, none, none, some (some 5)⟩

/-- A sample with a 7 mm 1-hour precipitation amount. -/
def item1h : Item := ⟨some 0, none, none, none, some (some 7), none⟩

/-- A sample whose 1-hour window reports a (physically impossible)
negative amount of -2 mm. -/
def itemNeg : Item := ⟨some 0, none, none, none, some (some (-2)), none⟩

/-- An aggregate with zero precipitation and temp_max above freezing. -/
def aggZero : DayAgg := ⟨0, some 1, some 5, none, none, 0⟩

/-- An aggregate with temp_max -3 °C and 2.0 mm precipitation. -/
def aggCold : DayAgg := ⟨0, some (-3), some (-3), none, none, 2⟩

/-- An aggregate with temp_max 1 °C and 2.0 mm precipitation. -/
def aggWarm : DayAgg := ⟨0, some 1, some 1, none, none, 2⟩

/-! ## Helper lemmas -/

theorem pyRound_floor_le (q : ℚ) : ⌊q⌋ ≤ pyRound q := by
  unfold pyRound
  split_ifs <;> omega

theorem pyRound_le_floor_add_one (q : ℚ) : pyRound q ≤ ⌊q⌋ + 1 := by
  unfold pyRound
  split_ifs <;> omega

theorem pyRound_mono {q r : ℚ} (h : q ≤ r) : pyRound q ≤ pyRound r := by
  rcases lt_or_le ⌊q⌋ ⌊r⌋ with hf | hf
  · calc pyRound q ≤ ⌊q⌋ + 1 := pyRound_le_floor_add_one q
      _ ≤ ⌊r⌋ := hf
      _ ≤ pyRound r := pyRound_floor_le r
  · have hf3 : ⌊r⌋ = ⌊q⌋ := le_antisymm hf (Int.floor_mono h)
    unfold pyRound
    rw [hf3]
    split_ifs <;> first | omega | linarith

theorem pyRound_nonneg {q : ℚ} (h : 0 ≤ q) : 0 ≤ pyRound q :=
  le_trans (Int.le_floor.mpr (by exact_mod_cast h)) (pyRound_floor_le q)

theorem round1_nonneg {q : ℚ} (h : 0 ≤ q) : 0 ≤ round1 q := by
  unfold round1
  have h10 : (0:ℚ) ≤ q * 10 := by linarith
  have hz : (0:ℤ) ≤ pyRound (q * 10) := pyRound_nonneg h10
  have hzq : (0:ℚ) ≤ ((pyRound (q * 10) : ℤ) : ℚ) := by exact_mod_cast hz
  linarith

theorem foldl_min_le_foldl_max (l : List ℚ) :
    ∀ x y : ℚ, x ≤ y → l.foldl min x ≤ l.foldl max y := by
  induction l with
  | nil => intro x y h; simpa using h
  | cons a t ih =>
    intro x y h
    simp only [List.foldl_cons]
    exact ih _ _ (le_trans (min_le_left x a) (le_trans h (le_max_left y a)))

theorem minList_le_maxList {l : List ℚ} {m M : ℚ}
    (hm : minList l = some m) (hM : maxList l = some M) : m ≤ M := by
  cases l with
  | nil => simp [minList] at hm
  | cons x xs =>
    simp only [minList, Option.some.injEq] at hm
    simp only [maxList, Option.some.injEq] at hM
    rw [← hm, ← hM]
    exact foldl_min_le_foldl_max xs x x le_rfl

theorem minList_eq_none {l : List ℚ} : minList l = none ↔ l = [] := by
  cases l <;> simp [minList]

theorem maxList_eq_none {l : List ℚ} : maxList l = none ↔ l = [] := by
  cases l <;> simp [maxList]

theorem dayRow_eq_some {today : ℤ} {items : List Item} {i : ℕ} {a : DayAgg}
    (h : dayRow today items i = some a) :
    a = reduceDay (today + (i:ℤ))
          (items.filter (fun it => it.time == some (today + (i:ℤ)))) ∧
    items.filter (fun it => it.time == some (today + (i:ℤ))) ≠ [] := by
  unfold dayRow at h
  by_cases he : (items.filter (fun it => it.time == some (today + (i:ℤ)))).isEmpty = true
  · rw [if_pos he] at h; cases h
  · rw [if_neg he] at h
    injection h with h2
    exact ⟨h2.symm, fun hnil => he (by rw [hnil]; rfl)⟩

theorem dayRow_date {today : ℤ} {items : List Item} {i : ℕ} {a : DayAgg}
    (h : dayRow today items i = some a) : a.date = today + (i:ℤ) := by
  obtain ⟨ha, -⟩ := dayRow_eq_some h
  rw [ha]
  rfl

theorem mem_parse_yr_items {today : ℤ} {items : List Item} {a : DayAgg}
    (ha : a ∈ parse_yr_items today items) :
    ∃ i : ℕ, i < 5 ∧ dayRow today items i = some a := by
  unfold parse_yr_items at ha
  rw [List.mem_filterMap] at ha
  obtain ⟨i, hi, h⟩ := ha
  exact ⟨i, List.mem_range.mp hi, h⟩

theorem parse_yr_items_nil (today : ℤ) : parse_yr_items today [] = [] := rfl

theorem extractPrecip_nonneg {it : Item}
    (h : ∀ q : ℚ, it.next_1_hours = some (some q) → 0 ≤ q) :
    0 ≤ extractPrecip it := by
  rcases hn : it.next_1_hours with - | d
  · simp [extractPrecip, hn]
  · rcases d with - | q
    · simp [extractPrecip, hn]
    · simpa [extractPrecip, hn] using h q hn

theorem pyRound_eq_of_fracLt {q : ℚ} {n : ℤ} (h1 : (n:ℚ) ≤ q)
    (h2 : q < (n:ℚ) + 1/2) : pyRound q = n := by
  have hfl : ⌊q⌋ = n := by
    rw [Int.floor_eq_iff]
    exact ⟨h1, by linarith⟩
  unfold pyRound
  rw [hfl, if_pos (by linarith : q - ((n:ℤ):ℚ) < 1/2)]

theorem pyRound_eq_of_fracGt {q : ℚ} {n : ℤ} (h1 : (n:ℚ) + 1/2 < q)
    (h2 : q < (n:ℚ) + 1) : pyRound q = n + 1 := by
  have hfl : ⌊q⌋ = n := by
    rw [Int.floor_eq_iff]
    exact ⟨by linarith, h2⟩
  unfold pyRound
  rw [hfl, if_neg (by linarith : ¬ q - ((n:ℤ):ℚ) < 1/2),
    if_pos (by linarith : (1:ℚ)/2 < q - ((n:ℤ):ℚ))]

theorem pyRound_intCast (n : ℤ) : pyRound ((n:ℤ):ℚ) = n :=
  pyRound_eq_of_fracLt le_rfl (by linarith)

theorem pyInt_eval {q : ℚ} {n : ℤ} (h0 : 0 ≤ q) (h1 : (n:ℚ) ≤ q)
    (h2 : q < (n:ℚ) + 1) : pyInt q = n := by
  unfold pyInt
  rw [if_neg (not_lt.mpr h0), Int.floor_eq_iff]
  exact ⟨h1, h2⟩

theorem round1_eval {q : ℚ} {n : ℤ} (h : q * 10 = (n:ℚ)) :
    round1 q = (n:ℚ) / 10 := by
  unfold round1
  rw [h, pyRound_intCast]

theorem round1_zero : round1 0 = 0 := by
  rw [round1_eval (n := 0) (by norm_num)]
  norm_num

theorem fmt1_zero : fmt1 (0:ℚ) = "0.0" := by
  have h : pyRound ((0:ℚ) * 10) = 0 := by
    rw [show ((0:ℚ) * 10) = ((0:ℤ):ℚ) by norm_num]
    exact pyRound_intCast 0
  simp only [fmt1, h]
  rfl

theorem pyRound_of_36_tenths : pyRound (18/5 : ℚ) = 4 := by
  have h : pyRound (18/5 : ℚ) = 3 + 1 :=
    pyRound_eq_of_fracGt (n := 3) (by norm_num) (by norm_num)
  rw [h]
  rfl

theorem snowOf_nonneg {info : DayAgg} (h : 0 ≤ info.precip_mm) :
    0 ≤ snowOf info := by
  unfold snowOf
  cases htm : info.temp_max with
  | none => exact le_refl 0
  | some t =>
    show 0 ≤ if t ≤ 0 then round1 (info.precip_mm * (3/2)) else 0
    split
    · exact round1_nonneg (mul_nonneg h (by norm_num))
    · exact le_refl 0

theorem demoAgg_mem : demoAgg ∈ parse_yr_items 0 [itemA, itemB] := by
  have h : parse_yr_items 0 [itemA, itemB] = [demoAgg] := rfl
  rw [h]
  exact List.mem_singleton.mpr rfl

theorem demoAgg_temp_min : demoAgg.temp_min = some 4 := by
  have h : demoAgg.temp_min = some (pyRound (18/5 : ℚ)) := rfl
  rw [h, pyRound_of_36_tenths]

theorem demoAgg_temp_max : demoAgg.temp_max = some 4 := by
  have h : demoAgg.temp_max = some (pyRound (18/5 : ℚ)) := rfl
  rw [h, pyRound_of_36_tenths]

/-! ## Claim theorems -/

/-- C1 (counterexample): the claim says a sample lacking the 1-hour window
but carrying a 6-hour window contributes the 6-hour amount; on the code a
sample with only a 6-hour window of 5 mm contributes 0, not 5 (the
spec-worded extraction would give 5). -/
theorem precip_window_counterexample :
    extractPrecip item6h = 0 ∧ specExtractPrecip item6h = 5 ∧
    (parse_yr_items 0 [item6h]).map (fun a => a.precip_mm) = [0] ∧
    (0:ℚ) ≠ 5 := by
  refine ⟨rfl, rfl, ?_, by norm_num⟩
  have h : (parse_yr_items 0 [item6h]).map (fun a => a.precip_mm) =
      [round1 (extractPrecip item6h + 0)] := rfl
  rw [h, show extractPrecip item6h + 0 = 0 by norm_num [extractPrecip, item6h],
    round1_zero]

/-- C1 (amended): per-sample precipitation extraction reads only the
1-hour accumulation window: its amount when present, 0 when the amount key
or the whole window is missing; the 6-hour window is never consulted (so
amounts are never summed across windows of one sample). -/
theorem precip_only_1h_window :
    (∀ it : Item, ∀ q : ℚ, it.next_1_hours = some (some q) →
      extractPrecip it = q) ∧
    (∀ it : Item, it.next_1_hours = some none → extractPrecip it = 0) ∧
    (∀ it : Item, it.next_1_hours = none → extractPrecip it = 0) ∧
    (∀ it : Item, ∀ v : Option (Option ℚ),
      extractPrecip { it with next_6_hours := v } = extractPrecip it) := by
  refine ⟨?_, ?_, ?_, ?_⟩
  · intro it q h; unfold extractPrecip; rw [h]; rfl
  · intro it h; unfold extractPrecip; rw [h]; rfl
  · intro it h; unfold extractPrecip; rw [h]
  · intro it v; rfl

/-- Witness for C1's amended theorem at a concrete sample. -/
theorem precip_only_1h_window_witness : extractPrecip item1h = 7 :=
  precip_only_1h_window.1 item1h 7 rfl

/-- C2: the aggregator returns at most 5 records, in strictly ascending
date order (hence at most one per calendar date), every date within
`[today, today+4]`, and only for dates whose bucket is nonempty. -/
theorem aggregate_window_invariants (today : ℤ) (items : List Item) :
    (parse_yr_items today items).length ≤ 5 ∧
    (parse_yr_items today items).Pairwise (fun a b => a.date < b.date) ∧
    ∀ a ∈ parse_yr_items today items,
      today ≤ a.date ∧ a.date ≤ today + 4 ∧
      items.filter (fun it => it.time == some a.date) ≠ [] := by
  refine ⟨?_, ?_, ?_⟩
  · unfold parse_yr_items
    calc (List.filterMap (dayRow today items) (List.range 5)).length
        ≤ (List.range 5).length := List.length_filterMap_le _ _
      _ = 5 := List.length_range 5
  · unfold parse_yr_items
    rw [List.pairwise_filterMap]
    refine (List.pairwise_lt_range 5).imp ?_
    intro i j hij b hb b' hb'
    rw [Option.mem_def] at hb hb'
    rw [dayRow_date hb, dayRow_date hb']
    have : (i:ℤ) < (j:ℤ) := by exact_mod_cast hij
    omega
  · intro a ha
    obtain ⟨i, hi, hrow⟩ := mem_parse_yr_items ha
    have hd := dayRow_date hrow
    obtain ⟨-, hne⟩ := dayRow_eq_some hrow
    refine ⟨by omega, by omega, ?_⟩
    rw [hd]
    exact hne

/-- Witness for C2 at a concrete payload of two day-0 samples. -/
theorem aggregate_window_invariants_witness :
    (parse_yr_items 0 [itemA, itemB]).length ≤ 5 ∧
    ((0:ℤ) ≤ demoAgg.date ∧ demoAgg.date ≤ 0 + 4 ∧
      [itemA, itemB].filter (fun it => it.time == some demoAgg.date) ≠ []) :=
  ⟨(aggregate_window_invariants 0 [itemA, itemB]).1,
   (aggregate_window_invariants 0 [itemA, itemB]).2.2 demoAgg demoAgg_mem⟩

/-- C3: the derived snow estimate equals `round1 (precip_mm * 1.5)` when
`temp_max` is present and at most 0, and equals 0 otherwise (also when
`temp_max` is absent); concretely `temp_max = -3, precip_mm = 2` gives 3
and `temp_max = 1, precip_mm = 2` gives 0. -/
theorem snow_estimate_formula :
    (∀ info : DayAgg, ∀ tmax : ℤ, info.temp_max = some tmax →
      snowOf info = if tmax ≤ 0 then round1 (info.precip_mm * (3/2)) else 0) ∧
    (∀ info : DayAgg, info.temp_max = none → snowOf info = 0) ∧
    snowOf aggCold = 3 ∧ snowOf aggWarm = 0 := by
  refine ⟨?_, ?_, ?_, rfl⟩
  · intro info tmax h; unfold snowOf; rw [h]
  · intro info h; unfold snowOf; rw [h]
  · have h : snowOf aggCold = round1 ((2:ℚ) * (3/2)) := rfl
    rw [h, round1_eval (n := 30) (by norm_num)]
    norm_num

/-- Witness for C3 at the freezing example aggregate. -/
theorem snow_estimate_formula_witness :
    snowOf aggCold = if (-3:ℤ) ≤ 0 then round1 (aggCold.precip_mm * (3/2)) else 0 :=
  snow_estimate_formula.1 aggCold (-3) rfl

/-- C4 (counterexample): the claim's bucket formula uses `round` and says
every degree in 348-360 maps to `"N"`; the code truncates with `int`, so
degree 348 maps to `"NNW"` (the spec-worded rounding formula would give
`"N"` there). -/
theorem compass_formula_counterexample :
    deg_to_compass (some 348) = "NNW" ∧ specCompass 348 = "N" ∧
    "NNW" ≠ "N" := by
  refine ⟨?_, ?_, by decide⟩
  · show dirs.getD ((pyInt ((348 + 45/4) / (45/2)) % 16).toNat) "?" = "NNW"
    rw [pyInt_eval (n := 15) (by norm_num) (by norm_num) (by norm_num)]
    rfl
  · show dirs.getD ((pyRound ((348 + 45/4) / (45/2)) % 16).toNat) "?" = "N"
    rw [pyRound_eq_of_fracGt (n := 15) (by norm_num) (by norm_num)]
    rfl

/-- C4 (amended): the bucket index is `int((deg + 11.25) / 22.5) mod 16`
(truncation, not rounding); degrees in `[0, 11.25)` and `[348.75, 360)`
map to `"N"`, degree 0 to `"N"`, 90 to `"E"`, 202.5 to `"SSW"`, and an
absent direction renders `"?"`. -/
theorem compass_mapping :
    deg_to_compass none = "?" ∧
    (∀ d : ℚ, 0 ≤ d → d < 45/4 → deg_to_compass (some d) = "N") ∧
    (∀ d : ℚ, 1395/4 ≤ d → d < 360 → deg_to_compass (some d) = "N") ∧
    deg_to_compass (some 0) = "N" ∧ deg_to_compass (some 90) = "E" ∧
    deg_to_compass (some (405/2)) = "SSW" := by
  refine ⟨rfl, ?_, ?_, ?_, ?_, ?_⟩
  · intro d h0 h1
    show dirs.getD ((pyInt ((d + 45/4) / (45/2)) % 16).toNat) "?" = "N"
    have hx0 : (0:ℚ) ≤ (d + 45/4) / (45/2) := by positivity
    have hfl : ⌊(d + 45/4) / (45/2)⌋ = 0 := by
      rw [Int.floor_eq_iff]
      constructor
      · exact_mod_cast hx0
      · rw [div_lt_iff₀ (by norm_num : (0:ℚ) < 45/2)]
        push_cast
        linarith
    unfold pyInt
    rw [if_neg (not_lt.mpr hx0), hfl]
    rfl
  · intro d h0 h1
    show dirs.getD ((pyInt ((d + 45/4) / (45/2)) % 16).toNat) "?" = "N"
    have hx0 : (0:ℚ) ≤ (d + 45/4) / (45/2) := by positivity
    have hfl : ⌊(d + 45/4) / (45/2)⌋ = 16 := by
      rw [Int.floor_eq_iff]
      constructor
      · rw [le_div_iff₀ (by norm_num : (0:ℚ) < 45/2)]
        push_cast
        linarith
      · rw [div_lt_iff₀ (by norm_num : (0:ℚ) < 45/2)]
        push_cast
        linarith
    unfold pyInt
    rw [if_neg (not_lt.mpr hx0), hfl]
    rfl
  · show dirs.getD ((pyInt ((0 + 45/4) / (45/2)) % 16).toNat) "?" = "N"
    rw [pyInt_eval (n := 0) (by norm_num) (by norm_num) (by norm_num)]
    rfl
  · show dirs.getD ((pyInt ((90 + 45/4) / (45/2)) % 16).toNat) "?" = "E"
    rw [pyInt_eval (n := 4) (by norm_num) (by norm_num) (by norm_num)]
    rfl
  · show dirs.getD ((pyInt ((405/2 + 45/4) / (45/2)) % 16).toNat) "?" = "SSW"
    rw [pyInt_eval (n := 9) (by norm_num) (by norm_num) (by norm_num)]
    rfl

/-- Witness for C4's amended theorem: wraparound at 350 degrees. -/
theorem compass_mapping_witness : deg_to_compass (some 350) = "N" :=
  compass_mapping.2.2.1 350 (by norm_num) (by norm_num)

/-- C5 (counterexample): a row with zero precipitation renders the literal
text `"0.0"` in both the rain and the snow cell, not a placeholder dash. -/
theorem zero_rain_text_counterexample :
    rowCells "Mon" aggZero = ["Mon", "5/1", "? ?", "0.0", "0.0"] := by
  unfold rowCells
  rw [show aggZero.precip_mm = 0 from rfl, show snowOf aggZero = 0 from rfl]
  simp only [fmt1_zero]
  rfl

/-- C5 (amended): the rain and snow cells always show the one-decimal
formatted value; when the value is exactly 0 the cell reads `"0.0"`
(there is no dash placeholder in the code). -/
theorem zero_value_renders_zero_text (label : String) (info : DayAgg) :
    (rowCells label info).getD 3 "" = fmt1 info.precip_mm ∧
    (rowCells label info).getD 4 "" = fmt1 (snowOf info) ∧
    (info.precip_mm = 0 → (rowCells label info).getD 3 "" = "0.0") ∧
    (snowOf info = 0 → (rowCells label info).getD 4 "" = "0.0") := by
  refine ⟨rfl, rfl, ?_, ?_⟩
  · intro h
    show fmt1 info.precip_mm = "0.0"
    rw [h]
    exact fmt1_zero
  · intro h
    show fmt1 (snowOf info) = "0.0"
    rw [h]
    exact fmt1_zero

/-- Witness for C5's amended theorem at a zero-precipitation aggregate. -/
theorem zero_value_renders_zero_text_witness :
    (rowCells "Mon" aggZero).getD 3 "" = "0.0" :=
  (zero_value_renders_zero_text "Mon" aggZero).2.2.1 rfl

/-- C6 (counterexample): a payload whose `properties` value is present but
not an object makes `parse_yr` raise (AttributeError on `.get`) instead of
returning an empty aggregate collection. -/
theorem malformed_properties_raises :
    parse_yr 0 (Payload.obj PropertiesField.nonObj) =
      Except.error "AttributeError" := rfl

/-- C6 (amended): a payload with the `properties` key missing, or with a
`properties` object whose `timeseries` key is missing, yields an empty
aggregate collection without raising; a present but non-object
`properties` value instead raises. -/
theorem missing_series_yields_empty (today : ℤ) :
    parse_yr today (Payload.obj PropertiesField.absent) = Except.ok [] ∧
    parse_yr today (Payload.obj (PropertiesField.obj TimeseriesField.absent)) =
      Except.ok [] :=
  ⟨congrArg Except.ok (parse_yr_items_nil today),
   congrArg Except.ok (parse_yr_items_nil today)⟩

/-- Witness for C6's amended theorem at a concrete reference date. -/
theorem missing_series_yields_empty_witness :
    parse_yr 0 (Payload.obj PropertiesField.absent) = Except.ok [] :=
  (missing_series_yields_empty 0).1

/-- C7 (counterexample): a payload whose single sample reports a negative
1-hour precipitation amount produces a record with `precip_mm = -2 < 0`;
the code never clamps. -/
theorem negative_precip_counterexample :
    (parse_yr_items 0 [itemNeg]).map (fun a => a.precip_mm) = [-2] ∧
    ¬ ((0:ℚ) ≤ -2) := by
  refine ⟨?_, by norm_num⟩
  have h : (parse_yr_items 0 [itemNeg]).map (fun a => a.precip_mm) =
      [round1 (extractPrecip itemNeg + 0)] := rfl
  rw [h, show extractPrecip itemNeg + 0 = -2 by norm_num [extractPrecip, itemNeg],
    round1_eval (n := -20) (by norm_num)]
  norm_num

/-- C7 (amended): provided every sample's reported 1-hour precipitation
amount is non-negative (as the upstream API guarantees), every returned
record has `precip_mm ≥ 0` and a non-negative snow estimate. -/
theorem precip_and_snow_nonneg (today : ℤ) (items : List Item)
    (hpos : ∀ it ∈ items, ∀ q : ℚ, it.next_1_hours = some (some q) → 0 ≤ q) :
    ∀ a ∈ parse_yr_items today items, 0 ≤ a.precip_mm ∧ 0 ≤ snowOf a := by
  intro a ha
  obtain ⟨i, -, hrow⟩ := mem_parse_yr_items ha
  obtain ⟨haeq, -⟩ := dayRow_eq_some hrow
  have hprecip : 0 ≤ a.precip_mm := by
    rw [haeq]
    show 0 ≤ round1 (((items.filter
      (fun it => it.time == some (today + (i:ℤ)))).map extractPrecip).sum)
    apply round1_nonneg
    apply List.sum_nonneg
    intro x hx
    rw [List.mem_map] at hx
    obtain ⟨it, hit, rfl⟩ := hx
    exact extractPrecip_nonneg (hpos it (List.mem_of_mem_filter hit))
  exact ⟨hprecip, snowOf_nonneg hprecip⟩

/-- Witness for C7's amended theorem at the two-sample day-0 payload. -/
theorem precip_and_snow_nonneg_witness :
    0 ≤ demoAgg.precip_mm ∧ 0 ≤ snowOf demoAgg :=
  precip_and_snow_nonneg 0 [itemA, itemB]
    (by
      intro it hit q hq
      rcases List.mem_pair.mp hit with rfl | rfl
      · have hq2 : some (some (1/2 : ℚ)) = some (some q) := hq
        injection hq2 with hq3
        injection hq3 with hq4
        rw [← hq4]
        norm_num
      · have hq2 : some (none : Option ℚ) = some (some q) := hq
        injection hq2 with hq3
        cases hq3)
    demoAgg demoAgg_mem

/-- C8: whenever both temperature bounds of a returned record are present,
`temp_min ≤ temp_max` (rounding the bucket's min and max preserves
order). -/
theorem temp_bounds_ordered (today : ℤ) (items : List Item) (a : DayAgg)
    (ha : a ∈ parse_yr_items today items) (lo hi : ℤ)
    (hlo : a.temp_min = some lo) (hhi : a.temp_max = some hi) : lo ≤ hi := by
  obtain ⟨i, -, hrow⟩ := mem_parse_yr_items ha
  obtain ⟨haeq, -⟩ := dayRow_eq_some hrow
  rw [haeq] at hlo hhi
  simp only [reduceDay] at hlo hhi
  obtain ⟨m, hm, hm2⟩ := Option.map_eq_some'.mp hlo
  obtain ⟨M, hM, hM2⟩ := Option.map_eq_some'.mp hhi
  rw [← hm2, ← hM2]
  exact pyRound_mono (minList_le_maxList hm hM)

/-- Witness for C8 at the two-sample day-0 payload (both bounds 4). -/
theorem temp_bounds_ordered_witness : (4:ℤ) ≤ 4 :=
  temp_bounds_ordered 0 [itemA, itemB] demoAgg demoAgg_mem 4 4
    demoAgg_temp_min demoAgg_temp_max

/-- C9 (counterexample): the code's header labels are not the five labels
the claim lists (the second is `"Temp (°C)"`, not `"Temp range (°C)"`, and
the third is `"Wind (m/s)"`, not `"Wind"`). -/
theorem header_labels_counterexample :
    headers ≠ ["Date", "Temp range (°C)", "Wind", "Rain (mm)", "Snow (cm)"] := by
  decide

/-- C9 (amended): the header row consists of exactly the five labels
`Date`, `Temp (°C)`, `Wind (m/s)`, `Rain (mm)`, `Snow (cm)`, in that
order, one per column center, and each is drawn at `cx - w/2` for its
measured width `w`, i.e. horizontally centered on its column center. -/
theorem header_row_layout :
    headers = ["Date", "Temp (°C)", "Wind (m/s)", "Rain (mm)", "Snow (cm)"] ∧
    headers.length = 5 ∧ col_centers.length = 5 ∧
    ∀ textWidth : String → ℚ, ∀ cx : ℚ, ∀ lbl : String,
      headerX textWidth cx lbl + textWidth lbl / 2 = cx := by
  refine ⟨rfl, rfl, rfl, ?_⟩
  intro textWidth cx lbl
  unfold headerX
  ring

/-- Witness for C9's amended theorem at a concrete width measure. -/
theorem header_row_layout_witness :
    headerX (fun s => (s.length : ℚ)) 10 "Date" +
      (("Date".length : ℚ)) / 2 = 10 :=
  header_row_layout.2.2.2 (fun s => (s.length : ℚ)) 10 "Date"

/-- C10: in every returned record the two temperature bounds are both
present or both absent (each is derived from the same filtered list of
in-bucket temperatures). -/
theorem temp_bounds_same_presence (today : ℤ) (items : List Item)
    (a : DayAgg) (ha : a ∈ parse_yr_items today items) :
    a.temp_min = none ↔ a.temp_max = none := by
  obtain ⟨i, -, hrow⟩ := mem_parse_yr_items ha
  obtain ⟨haeq, -⟩ := dayRow_eq_some hrow
  rw [haeq]
  simp only [reduceDay]
  rw [Option.map_eq_none', Option.map_eq_none', minList_eq_none, maxList_eq_none]

/-- Witness for C10 at the two-sample day-0 payload. -/
theorem temp_bounds_same_presence_witness :
    demoAgg.temp_min = none ↔ demoAgg.temp_max = none :=
  temp_bounds_same_presence 0 [itemA, itemB] demoAgg demoAgg_mem

end Forecasts
